import Mathlib

/-!
Shallow embedding of `src/pkg/whatsapp/webhook.go` from
fadlee/go-whatsapp-web-multidevice: the webhook payload builders
(`createPayload`, `createReceiptPayload`, `createPresencePayload`), the
event dispatch and fan-out (`forwardToWebhook`), and the delivery engine
(`submitWebhook`).

Modelling conventions:
- Go `map[string]interface{}` payloads become association lists
  `List (String × JValue)` built with `mapSet`, which mirrors Go's
  `body[k] = v` (overwrite on existing key, append otherwise).
- JSON values occurring in the payloads are strings, booleans, lists of
  strings (`message_ids`) and flat structured objects (the pass-through
  protobuf sub-messages), captured by the non-recursive `JValue`.
- `json.Marshal` of a Go map sorts the keys; `jsonMarshal` does the same.
- Timestamps are integers; Go's `Format(time.RFC3339)` is modelled by
  `formatRFC3339`, which (like the real formatter) never returns "".
- External collaborators are oracle parameters: `extract` for
  `ExtractMedia`, `sign` for `getMessageDigestOrSignature` (HMAC-SHA256,
  which never fails on a written key), `transport` for `client.Do`
  (per-attempt: `none` = no transport error, `some e` = transport error
  message e), `deliver` for the per-endpoint delivery outcome seen by the
  fan-out loop.
- `time.Sleep` calls are recorded as a list of slept durations (seconds).
- Errors are `AppError`: `webhookError msg` embeds
  `pkgError.WebhookError(msg)`, `genericError msg` embeds the plain
  `fmt.Errorf` used for unsupported event types.
-/

namespace Webhook

/-- JSON-ish values stored in webhook payloads. -/
inductive JValue where
  | str : String → JValue
  | bool : Bool → JValue
  | strList : List String → JValue
  | obj : List (String × String) → JValue
deriving DecidableEq, Repr

/-- A webhook payload: the Go `map[string]interface{}` as an association list. -/
abbrev Payload := List (String × JValue)

/-- Errors produced by the webhook package. `webhookError` embeds
`pkgError.WebhookError`; `genericError` embeds a plain `fmt.Errorf`. -/
inductive AppError where
  | webhookError : String → AppError
  | genericError : String → AppError
deriving DecidableEq, Repr

/-- Go map assignment `body[k] = v`: overwrite the entry if the key exists,
otherwise append it. -/
def mapSet (body : Payload) (k : String) (v : JValue) : Payload :=
  if body.any (fun kv => kv.1 = k) then
    body.map (fun kv => if kv.1 = k then (k, v) else kv)
  else
    body ++ [(k, v)]

/-- Key lookup in a payload. -/
def getKey (body : Payload) (k : String) : Option JValue :=
  (body.find? (fun kv => kv.1 = k)).map (fun kv => kv.2)

/-- Key membership in a payload. -/
def hasKey (body : Payload) (k : String) : Bool :=
  body.any (fun kv => kv.1 = k)

/-- Timestamps (Go `time.Time`) as integers; `0` is the zero time. -/
abbrev GoTime := Int

/-- Modelled formatter for Go's `t.Format(time.RFC3339)`. Like the real
RFC 3339 formatter it is deterministic, injective on our time model, and
never returns the empty string. -/
def formatRFC3339 (t : GoTime) : String :=
  "rfc3339:" ++ toString t

/-- Structured message content, the result of `buildEventMessage`.
Modelled from the spec: structured text/caption extracted from the
event's content (`buildEventMessage` lives outside `src/`); `text` is the
`Text` field gating inclusion, `rest` stands for the remaining fields. -/
structure EvtMessage where
  text : String
  rest : String
deriving DecidableEq, Repr

/-- Structured reaction, the result of `buildEventReaction`.
Modelled from the spec: target message + emoji (`buildEventReaction`
lives outside `src/`); `message` is the `Message` field gating inclusion. -/
structure EvtReaction where
  message : String
  rest : String
deriving DecidableEq, Repr

/-- JSON encoding of an `EvtMessage` as stored in the payload. -/
def EvtMessage.toJValue (m : EvtMessage) : JValue :=
  .obj [("text", m.text), ("rest", m.rest)]

/-- JSON encoding of an `EvtReaction` as stored in the payload. -/
def EvtReaction.toJValue (r : EvtReaction) : JValue :=
  .obj [("message", r.message), ("rest", r.rest)]

/-- The parts of a whatsmeow `*events.Message` read by `createPayload`.
Media sub-messages are opaque descriptors handed to `ExtractMedia`;
non-media sub-messages (`contact`, `list`, …) are opaque structured data
passed through verbatim. `messageContent` and `reaction` are the results
of `buildEventMessage`/`buildEventReaction`, and `forwarded` the result of
`buildForwarded` (all three live outside `src/`, modelled from the spec). -/
structure MessageEvent where
  sourceString : String
  pushName : String
  timestamp : GoTime
  messageContent : EvtMessage
  reaction : EvtReaction
  isViewOnce : Bool
  forwarded : Bool
  audioMessage : Option String
  contactMessage : Option (List (String × String))
  documentMessage : Option String
  imageMessage : Option String
  listMessage : Option (List (String × String))
  liveLocationMessage : Option (List (String × String))
  locationMessage : Option (List (String × String))
  orderMessage : Option (List (String × String))
  stickerMessage : Option String
  videoMessage : Option String
deriving DecidableEq, Repr

/-- The parts of a whatsmeow `*events.Receipt` read by `createReceiptPayload`. -/
structure ReceiptEvent where
  sourceString : String
  timestamp : GoTime
  messageIDs : List String
  receiptType : String
deriving DecidableEq, Repr

/-- Modelled from the library: whatsmeow's `types.ReceiptTypeDelivered`
constant compared against in `createReceiptPayload`. -/
def receiptTypeDelivered : String := ""

/-- The parts of a whatsmeow `*events.Presence` read by `createPresencePayload`. -/
structure PresenceEvent where
  fromString : String
  unavailable : Bool
  lastSeen : GoTime
deriving DecidableEq, Repr

/-- Inbound events as seen by `forwardToWebhook`'s type switch: the three
handled kinds plus any other runtime kind, carrying its `%T` name. -/
inductive Event where
  | message : MessageEvent → Event
  | receipt : ReceiptEvent → Event
  | presence : PresenceEvent → Event
  | other : String → Event
deriving DecidableEq, Repr

/-- An `extract` oracle models `ExtractMedia(storagePath, media)`:
either the stored file path or an error message. -/
abbrev ExtractOracle := String → String → Except String String

/-- One media block of `createPayload`: if the sub-message is present,
call `ExtractMedia` and either record the path under `kind` or abort the
whole build with the `WebhookError` built by the source
(`"Failed to download <kind>: <err>"`). -/
def mediaField (extract : ExtractOracle) (pathMedia kind : String)
    (media : Option String) (body : Payload) : Except AppError Payload :=
  match media with
  | none => .ok body
  | some desc =>
    match extract pathMedia desc with
    | .error e =>
        .error (.webhookError ("Failed to download " ++ kind ++ ": " ++ e))
    | .ok path => .ok (mapSet body kind (.str path))

/-- One pass-through block of `createPayload`: store the structured
sub-message verbatim when present. -/
def passThroughField (kind : String) (sub : Option (List (String × String)))
    (body : Payload) : Payload :=
  match sub with
  | none => body
  | some v => mapSet body kind (.obj v)

/-- The straight-line field blocks of `createPayload` before the media
blocks (webhook.go lines 50–77): `event_type` plus the presence-gated
`from`, `message`, `pushname`, `reaction`, `view_once`, `forwarded` and
`timestamp` fields. -/
def baseFields (evt : MessageEvent) : Payload :=
  let message := evt.messageContent
  let waReaction := evt.reaction
  let forwarded := evt.forwarded
  let body : Payload := mapSet [] "event_type" (.str "message")
  let body := if evt.sourceString ≠ "" then
      mapSet body "from" (.str evt.sourceString) else body
  let body := if message.text ≠ "" then
      mapSet body "message" message.toJValue else body
  let body := if evt.pushName ≠ "" then
      mapSet body "pushname" (.str evt.pushName) else body
  let body := if waReaction.message ≠ "" then
      mapSet body "reaction" waReaction.toJValue else body
  let body := if evt.isViewOnce then
      mapSet body "view_once" (.bool evt.isViewOnce) else body
  let body := if forwarded then
      mapSet body "forwarded" (.bool forwarded) else body
  let body := if formatRFC3339 evt.timestamp ≠ "" then
      mapSet body "timestamp" (.str (formatRFC3339 evt.timestamp)) else body
  body

/-- Embedding of `createPayload` (webhook.go lines 49–145). -/
def createPayload (extract : ExtractOracle) (pathMedia : String)
    (evt : MessageEvent) : Except AppError Payload := do
  let body ← mediaField extract pathMedia "audio" evt.audioMessage
    (baseFields evt)
  let body := passThroughField "contact" evt.contactMessage body
  let body ← mediaField extract pathMedia "document" evt.documentMessage body
  let body ← mediaField extract pathMedia "image" evt.imageMessage body
  let body := passThroughField "list" evt.listMessage body
  let body := passThroughField "live_location" evt.liveLocationMessage body
  let body := passThroughField "location" evt.locationMessage body
  let body := passThroughField "order" evt.orderMessage body
  let body ← mediaField extract pathMedia "sticker" evt.stickerMessage body
  let body ← mediaField extract pathMedia "video" evt.videoMessage body
  return body

/-- Embedding of `createReceiptPayload` (webhook.go lines 147–161). -/
def createReceiptPayload (evt : ReceiptEvent) : Except AppError Payload :=
  let body : Payload := mapSet [] "event_type" (.str "receipt")
  let body := mapSet body "from" (.str evt.sourceString)
  let body := mapSet body "timestamp" (.str (formatRFC3339 evt.timestamp))
  let body := mapSet body "message_ids" (.strList evt.messageIDs)
  let body :=
    if evt.receiptType = receiptTypeDelivered then
      mapSet body "receipt_type" (.str "delivered")
    else
      mapSet body "receipt_type" (.str evt.receiptType)
  .ok body

/-- Embedding of `createPresencePayload` (webhook.go lines 163–178).
`now` is the wall-clock time `time.Now()` observed during the build. -/
def createPresencePayload (now : GoTime) (evt : PresenceEvent) :
    Except AppError Payload :=
  let body : Payload := mapSet [] "event_type" (.str "presence")
  let body := mapSet body "from" (.str evt.fromString)
  let body := mapSet body "timestamp" (.str (formatRFC3339 now))
  let body := mapSet body "status" (.str "online")
  let body :=
    if evt.unavailable then
      let body := mapSet body "status" (.str "offline")
      if evt.lastSeen ≠ 0 then
        mapSet body "last_seen" (.str (formatRFC3339 evt.lastSeen))
      else body
    else body
  .ok body

/-! JSON serialization: `json.Marshal` of a Go `map[string]interface{}`
emits the keys in sorted byte order. Braces are written with escapes to
keep the encoder's output plain text. -/

/-- Minimal JSON string escaping (backslash and double quote). -/
def escapeJSON (s : String) : String :=
  String.join (s.toList.map (fun c =>
    if c = '\\' then "\\\\"
    else if c = '"' then "\\\""
    else String.singleton c))

/-- Encode a string as a JSON string literal. -/
def encodeString (s : String) : String :=
  "\"" ++ escapeJSON s ++ "\""

/-- Encode one `JValue`. -/
def encodeJValue : JValue → String
  | .str s => encodeString s
  | .bool b => if b then "true" else "false"
  | .strList xs =>
      "[" ++ String.intercalate "," (xs.map encodeString) ++ "]"
  | .obj kvs =>
      "\x7b" ++ String.intercalate ","
        (kvs.map (fun kv => encodeString kv.1 ++ ":" ++ encodeString kv.2))
        ++ "\x7d"

/-- Lexicographic order on character lists, by scalar value — the byte
order Go's `sort.Strings` uses on map keys. -/
def charListLe : List Char → List Char → Bool
  | [], _ => true
  | _ :: _, [] => false
  | c :: cs, d :: ds =>
      if c.toNat < d.toNat then true
      else if d.toNat < c.toNat then false
      else charListLe cs ds

/-- Lexicographic order on strings. -/
def keyLe (a b : String) : Bool :=
  charListLe a.data b.data

/-- Insert an entry into a key-sorted association list. -/
def insertByKey (kv : String × JValue) :
    List (String × JValue) → List (String × JValue)
  | [] => [kv]
  | hd :: tl =>
      if keyLe kv.1 hd.1 then kv :: hd :: tl else hd :: insertByKey kv tl

/-- Sort payload entries by key (insertion sort), as `json.Marshal` sorts
Go map keys. -/
def sortByKey : List (String × JValue) → List (String × JValue)
  | [] => []
  | hd :: tl => insertByKey hd (sortByKey tl)

/-- Embedding of `json.Marshal(payload)`: serialize with sorted keys.
Every value a builder can produce is serializable, so no error case. -/
def jsonMarshal (p : Payload) : String :=
  "\x7b" ++ String.intercalate ","
    ((sortByKey p).map (fun kv => encodeString kv.1 ++ ":" ++ encodeJValue kv.2))
    ++ "\x7d"

/-! The delivery engine `submitWebhook` (webhook.go lines 180–217). -/

/-- Go `http.Header.Set` on our header list (overwrite or append). -/
def headerSet (hs : List (String × String)) (k v : String) :
    List (String × String) :=
  if hs.any (fun kv => kv.1 = k) then
    hs.map (fun kv => if kv.1 = k then (k, v) else kv)
  else
    hs ++ [(k, v)]

/-- Header lookup. -/
def headerGet (hs : List (String × String)) (k : String) : Option String :=
  (hs.find? (fun kv => kv.1 = k)).map (fun kv => kv.2)

/-- The outbound HTTP request built by `submitWebhook`. -/
structure HttpRequest where
  method : String
  url : String
  body : String
  headers : List (String × String)
deriving DecidableEq, Repr

/-- Decidable equality of `Except` results, for concrete evaluation. -/
instance {ε α : Type} [DecidableEq ε] [DecidableEq α] :
    DecidableEq (Except ε α) := fun a b =>
  match a, b with
  | .ok x, .ok y =>
      if h : x = y then isTrue (by rw [h]) else isFalse (by simp [h])
  | .error x, .error y =>
      if h : x = y then isTrue (by rw [h]) else isFalse (by simp [h])
  | .ok _, .error _ => isFalse (by simp)
  | .error _, .ok _ => isFalse (by simp)

/-- A transport oracle models `client.Do(req)` per attempt (0-based):
`none` means the call returned without a transport-level error (whatever
the HTTP status), `some e` means it returned transport error `e`. -/
abbrev Transport := Nat → Option String

/-- Observable outcome of one `submitWebhook` run. -/
structure SubmitResult where
  request : HttpRequest
  attempts : Nat
  sleeps : List Nat
  outcome : Except AppError Unit
deriving DecidableEq, Repr

/-- Embedding of the retry loop (webhook.go lines 202–216): run attempts
`attempt`, `attempt+1`, … while `fuel` lasts; on a non-error result return
success immediately; on an error sleep `dur` seconds, double `dur`, and
retry. When the fuel (remaining attempts) runs out, fail with the
`WebhookError` of line 216, carrying the final attempt counter and the
last transport error. -/
def retryLoop (transport : Transport) :
    Nat → Nat → Nat → String → Nat × List Nat × Except AppError Unit
  | attempt, _, 0, lastErr =>
      (attempt, [],
        .error (.webhookError
          (("error when submit webhook after " ++ toString attempt
            ++ " attempts: ") ++ lastErr)))
  | attempt, dur, fuel + 1, _ =>
      match transport attempt with
      | none => (attempt + 1, [], .ok ())
      | some e =>
          let r := retryLoop transport (attempt + 1) (dur * 2) fuel e
          (r.1, dur :: r.2.1, r.2.2)

/-- Embedding of `submitWebhook` (webhook.go lines 180–217): marshal the
payload, build the POST request with `Content-Type` and
`X-Hub-Signature-256: sha256=<sign(body, secret)>` headers, then run the
retry loop with `maxAttempts = 5` and initial backoff 1 second. The
`sign` oracle models `getMessageDigestOrSignature` (HMAC-SHA256 hex,
which never fails on a written key). -/
def submitWebhook (sign : String → String → String) (secret : String)
    (transport : Transport) (payload : Payload) (url : String) :
    SubmitResult :=
  let postBody := jsonMarshal payload
  let signature := sign postBody secret
  let headers := headerSet [] "Content-Type" "application/json"
  let headers := headerSet headers "X-Hub-Signature-256"
    ("sha256=" ++ signature)
  let req : HttpRequest :=
    { method := "POST", url := url, body := postBody, headers := headers }
  let r := retryLoop transport 0 1 5 ""
  { request := req, attempts := r.1, sleeps := r.2.1, outcome := r.2.2 }

/-! Dispatch and fan-out: `forwardToWebhook` (webhook.go lines 18–47). -/

/-- The event switch of `forwardToWebhook` (lines 24–33): route each
supported kind to its payload builder, fail on anything else with the
`fmt.Errorf` of line 32, which reports the concrete `%T` kind name. -/
def dispatchPayload (extract : ExtractOracle) (pathMedia : String)
    (now : GoTime) : Event → Except AppError Payload
  | .message e => createPayload extract pathMedia e
  | .receipt e => createReceiptPayload e
  | .presence e => createPresencePayload now e
  | .other t => .error (.genericError ("unsupported event type: " ++ t))

/-- Whether the type switch handles the event. -/
def Event.isSupported : Event → Bool
  | .message _ => true
  | .receipt _ => true
  | .presence _ => true
  | .other _ => false

/-- A delivery oracle models the outcome `submitWebhook(payload, url)`
reports for each endpoint: `none` = success, `some e` = error `e`. -/
abbrev Deliver := String → Option AppError

/-- Observable outcome of one `forwardToWebhook` run: how many payload
builds ran, the built payload (when the build succeeded), the sequence of
`submitWebhook` invocations `(url, payload)` in order, and the result. -/
structure ForwardResult where
  builds : Nat
  payload : Option Payload
  deliveries : List (String × Payload)
  result : Except AppError Unit
deriving DecidableEq, Repr

/-- The fan-out loop of lines 39–43: call `submitWebhook` for each URL in
order, returning the first error immediately; later URLs are not tried. -/
def fanOut (deliver : Deliver) (payload : Payload) :
    List String → List (String × Payload) × Except AppError Unit
  | [] => ([], .ok ())
  | url :: rest =>
      match deliver url with
      | some e => ([(url, payload)], .error e)
      | none =>
          let r := fanOut deliver payload rest
          ((url, payload) :: r.1, r.2)

/-- Embedding of `forwardToWebhook` (webhook.go lines 18–47): dispatch on
the event's kind to build the payload once; on build error return it with
no deliveries; otherwise fan the payload out to the configured URLs. -/
def forwardToWebhook (extract : ExtractOracle) (pathMedia : String)
    (now : GoTime) (deliver : Deliver) (urls : List String) (evt : Event) :
    ForwardResult :=
  match evt with
  | .other t =>
      { builds := 0, payload := none, deliveries := [],
        result := .error (.genericError ("unsupported event type: " ++ t)) }
  | _ =>
      match dispatchPayload extract pathMedia now evt with
      | .error e =>
          { builds := 1, payload := none, deliveries := [],
            result := .error e }
      | .ok p =>
          let r := fanOut deliver p urls
          { builds := 1, payload := some p, deliveries := r.1,
            result := r.2 }

/-! Concrete fixtures used by witnesses and counterexamples. -/

/-- Whether a build result holds the given key. -/
def payloadHasKey (r : Except AppError Payload) (k : String) : Bool :=
  match r with
  | .ok p => hasKey p k
  | .error _ => false

/-- The media kinds whose sub-messages go through `ExtractMedia`. -/
def mediaKinds : List String := ["audio", "document", "image", "sticker", "video"]

/-- The media descriptor the event holds for a given media kind. -/
def mediaOf (evt : MessageEvent) : String → Option String
  | "audio" => evt.audioMessage
  | "document" => evt.documentMessage
  | "image" => evt.imageMessage
  | "sticker" => evt.stickerMessage
  | "video" => evt.videoMessage
  | _ => none

/-- Some present media attachment of the event fails extraction. -/
def someMediaFails (extract : ExtractOracle) (pathMedia : String)
    (evt : MessageEvent) : Prop :=
  ∃ kind ∈ mediaKinds, ∃ d e,
    mediaOf evt kind = some d ∧ extract pathMedia d = .error e

/-- Whether the event is a presence event. -/
def Event.isPresenceKind : Event → Bool
  | .presence _ => true
  | _ => false

/-- A concrete signer fixture. -/
def sign0 : String → String → String := fun b k => "sig(" ++ b ++ "," ++ k ++ ")"

/-- An extraction oracle that always succeeds. -/
def extractOk : ExtractOracle := fun _ d => .ok ("stored/" ++ d)

/-- An extraction oracle that always fails. -/
def extractFail : ExtractOracle := fun _ d => .error ("decode failed: " ++ d)

/-- A transport that errors on every attempt. -/
def transportFail : Transport := fun _ => some "connection refused"

/-- A transport that errors on attempts 0 and 1 and succeeds from attempt 2. -/
def transportThird : Transport := fun n => if n < 2 then some "timeout" else none

/-- A delivery oracle that always succeeds. -/
def deliverOk : Deliver := fun _ => none

/-- A message event with every optional part empty. -/
def msgEvt0 : MessageEvent :=
  { sourceString := "123@s", pushName := "", timestamp := 7
    messageContent := { text := "", rest := "" }
    reaction := { message := "", rest := "" }
    isViewOnce := false, forwarded := false
    audioMessage := none, contactMessage := none, documentMessage := none
    imageMessage := none, listMessage := none, liveLocationMessage := none
    locationMessage := none, orderMessage := none, stickerMessage := none
    videoMessage := none }

/-- An otherwise-empty message event carrying a contact sub-message. -/
def evtContact : MessageEvent :=
  { msgEvt0 with contactMessage := some [("displayName", "Bob")] }

/-- An otherwise-empty message event carrying an audio attachment. -/
def evtAudio : MessageEvent :=
  { msgEvt0 with audioMessage := some "audio-blob" }

/-- A concrete receipt event. -/
def rcptEvt0 : ReceiptEvent :=
  { sourceString := "123@s", timestamp := 7, messageIDs := ["A1", "B2"]
    receiptType := "read" }

/-- A concrete presence event (available, zero last-seen). -/
def presEvt0 : PresenceEvent :=
  { fromString := "123@s", unavailable := false, lastSeen := 0 }

/-! Theorems. Helper lemmas come first, then one theorem per claim. -/

/-- The RFC 3339 formatter never yields the empty string. -/
theorem formatRFC3339_ne_empty (t : GoTime) : formatRFC3339 t ≠ "" := by
  intro h
  have h2 := congrArg String.length h
  rw [formatRFC3339, String.length_append] at h2
  have h3 : ("rfc3339:").length = 8 := rfl
  have h4 : ("").length = 0 := rfl
  omega

/-- If the transport succeeds first at relative attempt `k` (with enough
fuel), the retry loop returns success after `k + 1` calls, sleeping once
per failed attempt with doubling durations, and does not sleep after the
successful call. -/
theorem retryLoop_first_success (transport : Transport) :
    ∀ (k fuel attempt dur : Nat) (lastErr : String), k < fuel →
      transport (attempt + k) = none →
      (∀ j, j < k → transport (attempt + j) ≠ none) →
      retryLoop transport attempt dur fuel lastErr =
        (attempt + k + 1, (List.range k).map (fun i => dur * 2 ^ i), .ok ()) := by
  intro k
  induction k with
  | zero =>
      intro fuel attempt dur lastErr hk hsucc _
      match fuel, hk with
      | f + 1, _ =>
        have h0 : transport attempt = none := by simpa using hsucc
        simp [retryLoop, h0]
  | succ k ih =>
      intro fuel attempt dur lastErr hk hsucc hfail
      match fuel, hk with
      | f + 1, hk =>
        have h0 : transport attempt ≠ none := by
          simpa using hfail 0 (Nat.succ_pos k)
        rcases he : transport attempt with _ | e
        · exact absurd he h0
        · have hrec := ih f (attempt + 1) (dur * 2) e
            (Nat.lt_of_succ_lt_succ hk)
            (by rw [Nat.add_right_comm]; exact hsucc)
            (fun j hj => by
              rw [Nat.add_right_comm]
              exact hfail (j + 1) (Nat.succ_lt_succ hj))
          have hmap : (fun i => dur * 2 ^ i) ∘ Nat.succ =
              fun i => dur * 2 * 2 ^ i := by
            funext i
            simp [pow_succ]
            ring
          rw [retryLoop, he]
          simp only [hrec, List.range_succ_eq_map, List.map_cons,
            List.map_map, hmap, pow_zero, mul_one, Prod.mk.injEq]
          exact ⟨by omega, trivial⟩

/-- C1 counterexample input, evaluated: with an always-erroring transport
the engine makes 5 attempts but sleeps 5 times (1, 2, 4, 8, 16 seconds),
not the 4 times (1, 2, 4, 8) the claim states. -/
theorem C1_counterexample :
    (submitWebhook sign0 "secret" transportFail [] "http://e").attempts = 5 ∧
    (submitWebhook sign0 "secret" transportFail [] "http://e").sleeps =
      [1, 2, 4, 8, 16] ∧
    (submitWebhook sign0 "secret" transportFail [] "http://e").sleeps ≠
      [1, 2, 4, 8] := by
  refine ⟨rfl, rfl, by decide⟩

/-- C1 (amended): if the transport errors on every attempt, `submitWebhook`
makes exactly 5 attempts, sleeps after every failed attempt — including
the last — with waits 1, 2, 4, 8, 16 time units (so the inter-attempt
waits are 1, 2, 4, 8 and a trailing 16-unit wait precedes the failure),
then fails with the webhook error carrying the attempt count (5) and the
last underlying transport error. -/
theorem C1_amended (sign : String → String → String) (secret : String)
    (payload : Payload) (url : String) (transport : Transport)
    (err : Nat → String) (h : ∀ n, transport n = some (err n)) :
    (submitWebhook sign secret transport payload url).attempts = 5 ∧
    (submitWebhook sign secret transport payload url).sleeps =
      [1, 2, 4, 8, 16] ∧
    (submitWebhook sign secret transport payload url).outcome =
      .error (.webhookError
        ("error when submit webhook after 5 attempts: " ++ err 4)) := by
  refine ⟨?_, ?_, ?_⟩ <;>
    (simp [submitWebhook, retryLoop, h 0, h 1, h 2, h 3, h 4]; try rfl)

/-- C1 witness: the amended theorem applied to the always-failing
transport fixture. -/
theorem C1_witness :
    (∀ n, transportFail n = some ((fun _ => "connection refused") n)) ∧
    ((submitWebhook sign0 "secret" transportFail [] "http://e").attempts = 5 ∧
     (submitWebhook sign0 "secret" transportFail [] "http://e").sleeps =
       [1, 2, 4, 8, 16] ∧
     (submitWebhook sign0 "secret" transportFail [] "http://e").outcome =
       .error (.webhookError
         ("error when submit webhook after 5 attempts: "
           ++ (fun _ => "connection refused") 4))) :=
  ⟨fun _ => rfl,
   C1_amended sign0 "secret" [] "http://e" transportFail
     (fun _ => "connection refused") (fun _ => rfl)⟩

/-- C2: any attempt whose transport call returns without a transport-level
error makes `submitWebhook` return success immediately: if the first
`k` attempts error and attempt `k` (0-based) does not, the engine reports
success after exactly `k + 1` attempts, having slept once per failed
attempt (1, 2, 4, … seconds) and not after the successful one. -/
theorem C2_success (sign : String → String → String) (secret : String)
    (payload : Payload) (url : String) (transport : Transport) (k : Nat)
    (hk : k < 5) (hsucc : transport k = none)
    (hfail : ∀ j, j < k → transport j ≠ none) :
    (submitWebhook sign secret transport payload url).attempts = k + 1 ∧
    (submitWebhook sign secret transport payload url).outcome = .ok () ∧
    (submitWebhook sign secret transport payload url).sleeps =
      (List.range k).map (fun i => 2 ^ i) := by
  have hr := retryLoop_first_success transport k 5 0 1 "" hk
    (by simpa using hsucc) (fun j hj => by simpa using hfail j hj)
  refine ⟨?_, ?_, ?_⟩ <;> simp [submitWebhook, hr]

/-- C2 witness: a transport erroring on attempts 0 and 1 and succeeding on
attempt 2 gives success after exactly 3 attempts with sleeps 1, 2. -/
theorem C2_witness :
    (2 < 5 ∧ transportThird 2 = none ∧
      (∀ j, j < 2 → transportThird j ≠ none)) ∧
    ((submitWebhook sign0 "secret" transportThird [] "http://e").attempts =
        2 + 1 ∧
     (submitWebhook sign0 "secret" transportThird [] "http://e").outcome =
        .ok () ∧
     (submitWebhook sign0 "secret" transportThird [] "http://e").sleeps =
        (List.range 2).map (fun i => 2 ^ i)) :=
  ⟨⟨by decide, by decide, by decide⟩,
   C2_success sign0 "secret" [] "http://e" transportThird 2 (by decide)
     (by decide) (by decide)⟩

/-- C9: the outbound request `submitWebhook` builds is an HTTP POST to the
endpoint URL whose body is the marshalled JSON of the payload, with
`Content-Type: application/json` and `X-Hub-Signature-256` set to
`sha256=` followed by the signer's output over exactly the request's body
bytes and the shared secret. -/
theorem C9_request (sign : String → String → String) (secret : String)
    (transport : Transport) (payload : Payload) (url : String) :
    (submitWebhook sign secret transport payload url).request.method =
      "POST" ∧
    (submitWebhook sign secret transport payload url).request.url = url ∧
    (submitWebhook sign secret transport payload url).request.body =
      jsonMarshal payload ∧
    headerGet (submitWebhook sign secret transport payload url).request.headers
      "Content-Type" = some "application/json" ∧
    headerGet (submitWebhook sign secret transport payload url).request.headers
      "X-Hub-Signature-256" =
      some ("sha256="
        ++ sign (submitWebhook sign secret transport payload url).request.body
             secret) := by
  refine ⟨rfl, rfl, rfl, ?_, ?_⟩ <;> rfl

/-- If every configured endpoint delivers, the fan-out loop delivers the
payload to each endpoint in order and succeeds. -/
theorem fanOut_all_ok (deliver : Deliver) (p : Payload) (urls : List String)
    (h : ∀ u ∈ urls, deliver u = none) :
    fanOut deliver p urls = (urls.map (fun u => (u, p)), .ok ()) := by
  induction urls with
  | nil => rfl
  | cons url rest ih =>
      have hu : deliver url = none := h url (by simp)
      simp [fanOut, hu, ih (fun u hu2 => h u (by simp [hu2]))]

/-- If endpoint `i` is the first whose delivery fails, the fan-out loop
delivers to exactly the first `i + 1` endpoints, in order, and returns
that endpoint's error. -/
theorem fanOut_first_fail (deliver : Deliver) (p : Payload) :
    ∀ (urls : List String) (i : Nat) (hi : i < urls.length) (e : AppError),
      deliver (urls.get ⟨i, hi⟩) = some e →
      (∀ j, ∀ hj : j < i, deliver (urls.get ⟨j, Nat.lt_trans hj hi⟩) = none) →
      fanOut deliver p urls =
        ((urls.take (i + 1)).map (fun u => (u, p)), .error e) := by
  intro urls
  induction urls with
  | nil => intro i hi; exact absurd hi (Nat.not_lt_zero i)
  | cons url rest ih =>
      intro i hi e hfail hok
      cases i with
      | zero =>
          have h0 : deliver url = some e := by simpa using hfail
          simp [fanOut, h0]
      | succ n =>
          have h0 : deliver url = none := by
            simpa using hok 0 (Nat.succ_pos n)
          have hrec := ih n (Nat.lt_of_succ_lt_succ hi) e
            (by simpa using hfail)
            (fun j hj => by simpa using hok (j + 1) (Nat.succ_lt_succ hj))
          simp [fanOut, h0, hrec]

/-- The fan-out loop succeeds exactly when every endpoint delivers. -/
theorem fanOut_ok_iff (deliver : Deliver) (p : Payload) (urls : List String) :
    (fanOut deliver p urls).2 = .ok () ↔ ∀ u ∈ urls, deliver u = none := by
  induction urls with
  | nil => simp [fanOut]
  | cons url rest ih =>
      rcases hu : deliver url with _ | e
      · simp [fanOut, hu, ih]
      · simp [fanOut, hu]

/-- On a supported event, `forwardToWebhook` is the dispatch followed by
the fan-out of the single built payload. -/
theorem forward_supported (extract : ExtractOracle) (pathMedia : String)
    (now : GoTime) (deliver : Deliver) (urls : List String) (evt : Event)
    (h : evt.isSupported = true) :
    forwardToWebhook extract pathMedia now deliver urls evt =
      match dispatchPayload extract pathMedia now evt with
      | .error e =>
          { builds := 1, payload := none, deliveries := [],
            result := .error e }
      | .ok p =>
          { builds := 1, payload := some p,
            deliveries := (fanOut deliver p urls).1,
            result := (fanOut deliver p urls).2 } := by
  cases evt with
  | message m => rfl
  | receipt r => rfl
  | presence pr => rfl
  | other t => exact absurd h (by simp [Event.isSupported])

/-- C3: for every supported event, `forwardToWebhook` builds the payload
exactly once and fans that same payload out to the endpoints in list
order: a build error is returned with no deliveries; otherwise, when all
endpoints deliver, every endpoint receives the payload and the call
succeeds; when endpoint `i` is the first to fail, exactly the first
`i + 1` endpoints are attempted (the rest are skipped) and that
endpoint's error is returned; and the call succeeds if and only if the
build and every endpoint delivery succeed. -/
theorem C3_forward (extract : ExtractOracle) (pathMedia : String)
    (now : GoTime) (deliver : Deliver) (urls : List String) (evt : Event)
    (h : evt.isSupported = true) :
    (forwardToWebhook extract pathMedia now deliver urls evt).builds = 1 ∧
    (∀ e, dispatchPayload extract pathMedia now evt = .error e →
      (forwardToWebhook extract pathMedia now deliver urls evt).result =
          .error e ∧
      (forwardToWebhook extract pathMedia now deliver urls evt).deliveries =
          []) ∧
    (∀ p, dispatchPayload extract pathMedia now evt = .ok p →
      (forwardToWebhook extract pathMedia now deliver urls evt).payload =
          some p ∧
      ((∀ u ∈ urls, deliver u = none) →
        (forwardToWebhook extract pathMedia now deliver urls evt).deliveries =
            urls.map (fun u => (u, p)) ∧
        (forwardToWebhook extract pathMedia now deliver urls evt).result =
            .ok ()) ∧
      (∀ i, ∀ hi : i < urls.length, ∀ e,
        deliver (urls.get ⟨i, hi⟩) = some e →
        (∀ j, ∀ hj : j < i,
          deliver (urls.get ⟨j, Nat.lt_trans hj hi⟩) = none) →
        (forwardToWebhook extract pathMedia now deliver urls evt).deliveries =
            (urls.take (i + 1)).map (fun u => (u, p)) ∧
        (forwardToWebhook extract pathMedia now deliver urls evt).result =
            .error e) ∧
      ((forwardToWebhook extract pathMedia now deliver urls evt).result =
          .ok () ↔ ∀ u ∈ urls, deliver u = none)) := by
  rw [forward_supported extract pathMedia now deliver urls evt h]
  rcases hd : dispatchPayload extract pathMedia now evt with e | p
  · refine ⟨rfl, ?_, ?_⟩
    · intro e2 he2
      cases he2
      exact ⟨rfl, rfl⟩
    · intro q hq
      simp at hq
  · refine ⟨rfl, ?_, ?_⟩
    · intro e2 he2
      simp at he2
    · intro q hq
      have hq2 : p = q := by injection hq
      subst hq2
      refine ⟨rfl, ?_, ?_, ?_⟩
      · intro hall
        have hf := fanOut_all_ok deliver p urls hall
        constructor
        · show (fanOut deliver p urls).1 = urls.map (fun u => (u, p))
          rw [hf]
        · show (fanOut deliver p urls).2 = .ok ()
          rw [hf]
      · intro i hi e hfail hok
        have hf := fanOut_first_fail deliver p urls i hi e hfail hok
        constructor
        · show (fanOut deliver p urls).1 =
            (urls.take (i + 1)).map (fun u => (u, p))
          rw [hf]
        · show (fanOut deliver p urls).2 = .error e
          rw [hf]
      · show (fanOut deliver p urls).2 = .ok () ↔ ∀ u ∈ urls, deliver u = none
        exact fanOut_ok_iff deliver p urls

/-- C3 witness: the theorem applied to a receipt event fanned out to two
endpoints, the second of which fails. -/
theorem C3_witness :
    (Event.receipt rcptEvt0).isSupported = true ∧
    (forwardToWebhook extractOk "media" 7
        (fun u => if u = "http://b" then some (.webhookError "down") else none)
        ["http://a", "http://b"] (Event.receipt rcptEvt0)).builds = 1 :=
  ⟨by decide,
   (C3_forward extractOk "media" 7
     (fun u => if u = "http://b" then some (.webhookError "down") else none)
     ["http://a", "http://b"] (Event.receipt rcptEvt0) (by decide)).1⟩

/-- C8: the event switch routes each of the three supported kinds to its
matching payload builder and fails on every other kind with the error
reporting the concrete kind name — it never silently ignores one: the
whole forward call returns that error. -/
theorem C8_dispatch (extract : ExtractOracle) (pathMedia : String)
    (now : GoTime) :
    (∀ t, dispatchPayload extract pathMedia now (.other t) =
      .error (.genericError ("unsupported event type: " ++ t))) ∧
    (∀ t urls deliver,
      (forwardToWebhook extract pathMedia now deliver urls (.other t)).result =
        .error (.genericError ("unsupported event type: " ++ t))) ∧
    (∀ m, dispatchPayload extract pathMedia now (.message m) =
      createPayload extract pathMedia m) ∧
    (∀ r, dispatchPayload extract pathMedia now (.receipt r) =
      createReceiptPayload r) ∧
    (∀ pr, dispatchPayload extract pathMedia now (.presence pr) =
      createPresencePayload now pr) :=
  ⟨fun _ => rfl, fun _ _ _ => rfl, fun _ => rfl, fun _ => rfl, fun _ => rfl⟩

/-- C10 counterexample input, evaluated: with an empty endpoint list, a
supported message event whose audio extraction fails still makes
`forwardToWebhook` return an error, not success. -/
theorem C10_counterexample :
    (Event.message evtAudio).isSupported = true ∧
    (forwardToWebhook extractFail "media" 7 deliverOk []
        (Event.message evtAudio)).deliveries = [] ∧
    (forwardToWebhook extractFail "media" 7 deliverOk []
        (Event.message evtAudio)).result ≠ .ok () := by
  refine ⟨rfl, rfl, by decide⟩

/-- C10 (amended): for every supported event whose payload build succeeds,
an empty endpoint list means the payload is still built (exactly once),
no delivery is attempted, and the call returns success; a failed build
returns its error instead, deliveries staying empty either way. -/
theorem C10_empty (extract : ExtractOracle) (pathMedia : String)
    (now : GoTime) (deliver : Deliver) (evt : Event)
    (h : evt.isSupported = true) (p : Payload)
    (hp : dispatchPayload extract pathMedia now evt = .ok p) :
    (forwardToWebhook extract pathMedia now deliver [] evt).builds = 1 ∧
    (forwardToWebhook extract pathMedia now deliver [] evt).deliveries = [] ∧
    (forwardToWebhook extract pathMedia now deliver [] evt).result =
      .ok () := by
  rw [forward_supported extract pathMedia now deliver [] evt h, hp]
  exact ⟨rfl, rfl, rfl⟩

/-- C10 witness: the amended theorem applied to a concrete receipt event
with no endpoints. -/
theorem C10_witness :
    ((Event.receipt rcptEvt0).isSupported = true ∧
      dispatchPayload extractOk "media" 7 (Event.receipt rcptEvt0) =
        .ok (createReceiptPayload rcptEvt0).toOption.get!) ∧
    ((forwardToWebhook extractOk "media" 7 deliverOk []
        (Event.receipt rcptEvt0)).builds = 1 ∧
     (forwardToWebhook extractOk "media" 7 deliverOk []
        (Event.receipt rcptEvt0)).deliveries = [] ∧
     (forwardToWebhook extractOk "media" 7 deliverOk []
        (Event.receipt rcptEvt0)).result = .ok ()) :=
  ⟨⟨by decide, by decide⟩,
   C10_empty extractOk "media" 7 deliverOk (Event.receipt rcptEvt0)
     (by decide) (createReceiptPayload rcptEvt0).toOption.get! (by decide)⟩

/-- Bind on an `Except` error short-circuits. -/
theorem except_error_bind {ε α β : Type} (e : ε) (f : α → Except ε β) :
    (Except.error e >>= f) = .error e := rfl

/-- Bind on an `Except` success applies the continuation. -/
theorem except_ok_bind {ε α β : Type} (a : α) (f : α → Except ε β) :
    (Except.ok a >>= f) = f a := rfl

/-- A media block only fails when the sub-message is present and its
extraction fails, and then it fails with the webhook error naming the
media kind and the underlying cause. -/
theorem mediaField_error (extract : ExtractOracle) (pm kind : String)
    (media : Option String) (body : Payload) (err : AppError)
    (h : mediaField extract pm kind media body = .error err) :
    ∃ d e, media = some d ∧ extract pm d = .error e ∧
      err = .webhookError ("Failed to download " ++ kind ++ ": " ++ e) := by
  rcases media with _ | d
  · simp [mediaField] at h
  · rcases he : extract pm d with e | path
    · simp only [mediaField, he] at h
      cases h
      exact ⟨d, e, rfl, he, rfl⟩
    · simp [mediaField, he] at h

/-- A media block that returns a body had every present sub-message
extract successfully. -/
theorem mediaField_ok (extract : ExtractOracle) (pm kind : String)
    (media : Option String) (body body2 : Payload)
    (h : mediaField extract pm kind media body = .ok body2) :
    ∀ d, media = some d → ∃ path, extract pm d = .ok path := by
  intro d hd
  subst hd
  rcases he : extract pm d with e | path
  · simp [mediaField, he] at h
  · exact ⟨path, rfl⟩

/-- C4: whenever some present media attachment (audio, document, image,
sticker or video) fails extraction, `createPayload` fails with the
webhook error naming a failed media kind and wrapping its underlying
extraction error — no payload, partial or otherwise, is returned. -/
theorem C4_media_failure (extract : ExtractOracle) (pathMedia : String)
    (evt : MessageEvent) (h : someMediaFails extract pathMedia evt) :
    ∃ kind d e, kind ∈ mediaKinds ∧ mediaOf evt kind = some d ∧
      extract pathMedia d = .error e ∧
      createPayload extract pathMedia evt =
        .error (.webhookError
          ("Failed to download " ++ kind ++ ": " ++ e)) := by
  rcases h1 : mediaField extract pathMedia "audio" evt.audioMessage
      (baseFields evt) with e1 | b1
  · obtain ⟨d, e, hd, he, herr⟩ :=
      mediaField_error extract pathMedia "audio" evt.audioMessage
        (baseFields evt) e1 h1
    exact ⟨"audio", d, e, by simp [mediaKinds],
      by simpa [mediaOf] using hd, he,
      by simp [createPayload, h1, herr, except_error_bind, except_ok_bind]⟩
  · rcases h2 : mediaField extract pathMedia "document" evt.documentMessage
        (passThroughField "contact" evt.contactMessage b1) with e2 | b2
    · obtain ⟨d, e, hd, he, herr⟩ :=
        mediaField_error extract pathMedia "document" evt.documentMessage
          (passThroughField "contact" evt.contactMessage b1) e2 h2
      exact ⟨"document", d, e, by simp [mediaKinds],
        by simpa [mediaOf] using hd, he,
        by simp [createPayload, h1, h2, herr, except_error_bind, except_ok_bind]⟩
    · rcases h3 : mediaField extract pathMedia "image" evt.imageMessage b2
          with e3 | b3
      · obtain ⟨d, e, hd, he, herr⟩ :=
          mediaField_error extract pathMedia "image" evt.imageMessage b2 e3 h3
        exact ⟨"image", d, e, by simp [mediaKinds],
          by simpa [mediaOf] using hd, he,
          by simp [createPayload, h1, h2, h3, herr, except_error_bind, except_ok_bind]⟩
      · rcases h4 : mediaField extract pathMedia "sticker" evt.stickerMessage
            (passThroughField "order" evt.orderMessage
              (passThroughField "location" evt.locationMessage
                (passThroughField "live_location" evt.liveLocationMessage
                  (passThroughField "list" evt.listMessage b3)))) with e4 | b4
        · obtain ⟨d, e, hd, he, herr⟩ :=
            mediaField_error extract pathMedia "sticker" evt.stickerMessage
              (passThroughField "order" evt.orderMessage
                (passThroughField "location" evt.locationMessage
                  (passThroughField "live_location" evt.liveLocationMessage
                    (passThroughField "list" evt.listMessage b3)))) e4 h4
          exact ⟨"sticker", d, e, by simp [mediaKinds],
            by simpa [mediaOf] using hd, he,
            by simp [createPayload, h1, h2, h3, h4, herr, except_error_bind, except_ok_bind]⟩
        · rcases h5 : mediaField extract pathMedia "video" evt.videoMessage b4
              with e5 | b5
          · obtain ⟨d, e, hd, he, herr⟩ :=
              mediaField_error extract pathMedia "video" evt.videoMessage b4
                e5 h5
            exact ⟨"video", d, e, by simp [mediaKinds],
              by simpa [mediaOf] using hd, he,
              by simp [createPayload, h1, h2, h3, h4, h5, herr, except_error_bind, except_ok_bind]⟩
          · exfalso
            obtain ⟨kind, hk, d, e, hm, he⟩ := h
            simp only [mediaKinds, List.mem_cons, List.not_mem_nil,
              or_false] at hk
            rcases hk with rfl | rfl | rfl | rfl | rfl
            · simp only [mediaOf] at hm
              obtain ⟨path, hpath⟩ := mediaField_ok extract pathMedia "audio"
                evt.audioMessage (baseFields evt) b1 h1 d hm
              simp [hpath] at he
            · simp only [mediaOf] at hm
              obtain ⟨path, hpath⟩ := mediaField_ok extract pathMedia
                "document" evt.documentMessage
                (passThroughField "contact" evt.contactMessage b1) b2 h2 d hm
              simp [hpath] at he
            · simp only [mediaOf] at hm
              obtain ⟨path, hpath⟩ := mediaField_ok extract pathMedia "image"
                evt.imageMessage b2 b3 h3 d hm
              simp [hpath] at he
            · simp only [mediaOf] at hm
              obtain ⟨path, hpath⟩ := mediaField_ok extract pathMedia
                "sticker" evt.stickerMessage
                (passThroughField "order" evt.orderMessage
                  (passThroughField "location" evt.locationMessage
                    (passThroughField "live_location" evt.liveLocationMessage
                      (passThroughField "list" evt.listMessage b3)))) b4 h4
                d hm
              simp [hpath] at he
            · simp only [mediaOf] at hm
              obtain ⟨path, hpath⟩ := mediaField_ok extract pathMedia "video"
                evt.videoMessage b4 b5 h5 d hm
              simp [hpath] at he

/-- C4 witness: a message event with an audio attachment and a failing
extractor makes `createPayload` fail with the audio webhook error. -/
theorem C4_witness :
    someMediaFails extractFail "media" evtAudio ∧
    (∃ kind d e, kind ∈ mediaKinds ∧ mediaOf evtAudio kind = some d ∧
      extractFail "media" d = .error e ∧
      createPayload extractFail "media" evtAudio =
        .error (.webhookError
          ("Failed to download " ++ kind ++ ": " ++ e))) :=
  ⟨⟨"audio", by simp [mediaKinds], "audio-blob", "decode failed: audio-blob",
     rfl, rfl⟩,
   C4_media_failure extractFail "media" evtAudio
     ⟨"audio", by simp [mediaKinds], "audio-blob",
       "decode failed: audio-blob", rfl, rfl⟩⟩

/-- With no media sub-messages and no structured pass-through
sub-messages, `createPayload` returns exactly the straight-line fields. -/
theorem createPayload_no_media (extract : ExtractOracle) (pathMedia : String)
    (evt : MessageEvent)
    (haudio : evt.audioMessage = none) (hcontact : evt.contactMessage = none)
    (hdoc : evt.documentMessage = none) (himg : evt.imageMessage = none)
    (hlist : evt.listMessage = none) (hlive : evt.liveLocationMessage = none)
    (hloc : evt.locationMessage = none) (horder : evt.orderMessage = none)
    (hstick : evt.stickerMessage = none) (hvid : evt.videoMessage = none) :
    createPayload extract pathMedia evt = .ok (baseFields evt) := by
  simp [createPayload, mediaField, passThroughField, haudio, hcontact, hdoc,
    himg, hlist, hlive, hloc, horder, hstick, hvid, except_ok_bind]

/-- C5 counterexample input, evaluated: a message event with empty text,
no reaction, not forwarded and no media — but carrying a contact
sub-message — builds a payload that also contains the key `contact`,
which is none of `event_type`, `from`, `pushname`, `timestamp`. -/
theorem C5_counterexample :
    evtContact.messageContent.text = "" ∧
    evtContact.reaction.message = "" ∧
    evtContact.forwarded = false ∧
    evtContact.audioMessage = none ∧ evtContact.documentMessage = none ∧
    evtContact.imageMessage = none ∧ evtContact.stickerMessage = none ∧
    evtContact.videoMessage = none ∧
    payloadHasKey (createPayload extractOk "media" evtContact) "contact" =
      true := by
  refine ⟨rfl, rfl, rfl, rfl, rfl, rfl, rfl, rfl, ?_⟩
  decide

/-- C5 (amended): for every message event with no media, no structured
pass-through sub-messages (`contact`, `list`, `live_location`,
`location`, `order`), no reaction, no view-once flag, not forwarded and
empty text, the payload holds exactly `event_type` plus, gated on their
source values being non-empty, `from`, `pushname` and `timestamp` (whose
formatted source is never empty), each carrying its source value. -/
theorem C5_keys (extract : ExtractOracle) (pathMedia : String)
    (evt : MessageEvent)
    (htext : evt.messageContent.text = "")
    (hreact : evt.reaction.message = "")
    (hview : evt.isViewOnce = false)
    (hfwd : evt.forwarded = false)
    (haudio : evt.audioMessage = none) (hcontact : evt.contactMessage = none)
    (hdoc : evt.documentMessage = none) (himg : evt.imageMessage = none)
    (hlist : evt.listMessage = none) (hlive : evt.liveLocationMessage = none)
    (hloc : evt.locationMessage = none) (horder : evt.orderMessage = none)
    (hstick : evt.stickerMessage = none) (hvid : evt.videoMessage = none) :
    ∃ p, createPayload extract pathMedia evt = .ok p ∧
      p.map Prod.fst =
        ["event_type"]
          ++ (if evt.sourceString = "" then [] else ["from"])
          ++ (if evt.pushName = "" then [] else ["pushname"])
          ++ ["timestamp"] ∧
      (evt.sourceString ≠ "" →
        getKey p "from" = some (.str evt.sourceString)) ∧
      (evt.pushName ≠ "" →
        getKey p "pushname" = some (.str evt.pushName)) ∧
      getKey p "timestamp" = some (.str (formatRFC3339 evt.timestamp)) := by
  refine ⟨baseFields evt,
    createPayload_no_media extract pathMedia evt haudio hcontact hdoc himg
      hlist hlive hloc horder hstick hvid, ?_, ?_, ?_⟩ <;>
    by_cases hf : evt.sourceString = "" <;>
      by_cases hp : evt.pushName = "" <;>
        simp [baseFields, mapSet, getKey, htext, hreact, hview, hfwd, hf, hp,
          formatRFC3339_ne_empty evt.timestamp]

/-- C5 witness: the amended theorem applied to the all-empty message
event fixture. -/
theorem C5_witness :
    (msgEvt0.messageContent.text = "" ∧ msgEvt0.reaction.message = "" ∧
      msgEvt0.isViewOnce = false ∧ msgEvt0.forwarded = false ∧
      msgEvt0.audioMessage = none ∧ msgEvt0.contactMessage = none ∧
      msgEvt0.documentMessage = none ∧ msgEvt0.imageMessage = none ∧
      msgEvt0.listMessage = none ∧ msgEvt0.liveLocationMessage = none ∧
      msgEvt0.locationMessage = none ∧ msgEvt0.orderMessage = none ∧
      msgEvt0.stickerMessage = none ∧ msgEvt0.videoMessage = none) ∧
    (∃ p, createPayload extractOk "media" msgEvt0 = .ok p ∧
      p.map Prod.fst =
        ["event_type"]
          ++ (if msgEvt0.sourceString = "" then [] else ["from"])
          ++ (if msgEvt0.pushName = "" then [] else ["pushname"])
          ++ ["timestamp"] ∧
      (msgEvt0.sourceString ≠ "" →
        getKey p "from" = some (.str msgEvt0.sourceString)) ∧
      (msgEvt0.pushName ≠ "" →
        getKey p "pushname" = some (.str msgEvt0.pushName)) ∧
      getKey p "timestamp" =
        some (.str (formatRFC3339 msgEvt0.timestamp))) :=
  ⟨⟨rfl, rfl, rfl, rfl, rfl, rfl, rfl, rfl, rfl, rfl, rfl, rfl, rfl, rfl⟩,
   C5_keys extractOk "media" msgEvt0 rfl rfl rfl rfl rfl rfl rfl rfl rfl rfl
     rfl rfl rfl rfl⟩

/-- C6 counterexample input, evaluated: the presence payload embeds the
wall-clock time observed at build time, so the same presence event built
at clock 0 and at clock 1 serializes to different JSON bytes. -/
theorem C6_counterexample :
    (dispatchPayload extractOk "media" 0 (Event.presence presEvt0)).map
        jsonMarshal ≠
      (dispatchPayload extractOk "media" 1 (Event.presence presEvt0)).map
        jsonMarshal := by
  have h0 : (dispatchPayload extractOk "media" 0 (Event.presence presEvt0)).map
      jsonMarshal =
      .ok "\x7b\"event_type\":\"presence\",\"from\":\"123@s\",\"status\":\"online\",\"timestamp\":\"rfc3339:0\"\x7d" := rfl
  have h1 : (dispatchPayload extractOk "media" 1 (Event.presence presEvt0)).map
      jsonMarshal =
      .ok "\x7b\"event_type\":\"presence\",\"from\":\"123@s\",\"status\":\"online\",\"timestamp\":\"rfc3339:1\"\x7d" := rfl
  rw [h0, h1]
  intro h
  have h2 := Except.ok.inj h
  exact absurd h2 (by decide)

/-- C6 (amended): for message and receipt events the build does not read
the clock, so building twice from the same event — even at different
clock times — yields identical payloads and byte-identical serialized
JSON; presence payloads embed the build-time clock, so only builds at the
same clock time coincide. -/
theorem C6_deterministic (extract : ExtractOracle) (pathMedia : String)
    (now1 now2 : GoTime) (evt : Event)
    (h : evt.isPresenceKind = false) :
    (dispatchPayload extract pathMedia now1 evt).map jsonMarshal =
      (dispatchPayload extract pathMedia now2 evt).map jsonMarshal := by
  cases evt with
  | message m => rfl
  | receipt r => rfl
  | presence pr => simp [Event.isPresenceKind] at h
  | other t => rfl

/-- C6 witness: a receipt event built at clock 0 and clock 99 serializes
identically. -/
theorem C6_witness :
    (Event.receipt rcptEvt0).isPresenceKind = false ∧
    (dispatchPayload extractOk "media" 0 (Event.receipt rcptEvt0)).map
        jsonMarshal =
      (dispatchPayload extractOk "media" 99 (Event.receipt rcptEvt0)).map
        jsonMarshal :=
  ⟨by decide,
   C6_deterministic extractOk "media" 0 99 (Event.receipt rcptEvt0)
     (by decide)⟩

/-- C7: the presence payload always builds, its `status` is `"offline"`
exactly when the event marks the subject unavailable and `"online"`
otherwise, `last_seen` is present exactly when the status is offline and
the recorded last-seen time is non-zero (and then holds that time), and
an online payload never carries `last_seen`. -/
theorem C7_presence (now : GoTime) (evt : PresenceEvent) :
    ∃ p, createPresencePayload now evt = .ok p ∧
      getKey p "status" =
        some (.str (if evt.unavailable then "offline" else "online")) ∧
      (hasKey p "last_seen" = true ↔
        evt.unavailable = true ∧ evt.lastSeen ≠ 0) ∧
      (evt.unavailable = true → evt.lastSeen ≠ 0 →
        getKey p "last_seen" = some (.str (formatRFC3339 evt.lastSeen))) := by
  obtain ⟨f, un, ls⟩ := evt
  cases un with
  | false =>
      refine ⟨[("event_type", .str "presence"), ("from", .str f),
        ("timestamp", .str (formatRFC3339 now)),
        ("status", .str "online")], rfl, rfl, by simp [hasKey], by simp⟩
  | true =>
      by_cases hls : ls = 0
      · subst hls
        refine ⟨[("event_type", .str "presence"), ("from", .str f),
          ("timestamp", .str (formatRFC3339 now)),
          ("status", .str "offline")], rfl, rfl, by simp [hasKey], ?_⟩
        intro _ h2
        exact absurd rfl h2
      · refine ⟨[("event_type", .str "presence"), ("from", .str f),
          ("timestamp", .str (formatRFC3339 now)),
          ("status", .str "offline"),
          ("last_seen", .str (formatRFC3339 ls))], ?_, ?_, ?_, ?_⟩
        · simp [createPresencePayload, mapSet, hls]
        · rfl
        · simp [hasKey, hls]
        · intro _ _
          rfl

end Webhook
